import Mathlib

/-!
# Verification of the flagfall board interaction controller

Shallow embedding of `master-program/src/main.rs`: the board FSM
(`update_state`), the LED projector (`get_rgb`), the gantry path planner
(`move_to_steps` / `capture_piece`) and the relevant fragments of the game
loop in `main`.

The chess rules come from the external `shakmaty` crate (the spec's "Rules
Oracle").  They are modelled abstractly by the `Oracle` structure: each field
is one oracle query the source performs (`turn`, `role_at`, `occupied`,
`us`, `them`, `attacks_from`, `attacks_to`, `king_attackers`, `is_legal`).
Concrete `Oracle` values used in witnesses and counterexamples are filled in
faithfully to real chess for the position they describe.

Rust `.unwrap()` on an `Option` panics when the option is `None`; embedded
functions that perform such an unwrap return `Option` results, with `none`
modelling the panic.

Planner coordinates are `f64` in the source but every value that occurs is a
multiple of 1/2 (file/rank centres 1..8, half-square lanes, graveyard rows),
all exactly representable and exactly compared, so the embedding uses `ℚ`.
-/

namespace Flagfall

/-- A board square, 0 = A1, 7 = H1, 56 = A8, 63 = H8 (rank-major), exactly as
`shakmaty::Square` and the reed-switch event encoding. -/
abbrev Sq := Fin 64

/-- A set of squares; `shakmaty::Bitboard`. -/
abbrev Bitboard := Finset Sq

/-- `shakmaty::Color`. -/
inductive Color
  | white
  | black
deriving DecidableEq, Repr

/-- `Color::other`. -/
def Color.other : Color → Color
  | .white => .black
  | .black => .white

/-- `shakmaty::Role`. -/
inductive Role
  | pawn
  | knight
  | bishop
  | rook
  | queen
  | king
deriving DecidableEq, Repr

/-- `shakmaty::Move`, restricted to the variants the program constructs or
plans (`Normal`, `Castle`, `EnPassant`).  `Castle` carries the king and rook
squares, as in the source. -/
inductive Move
  | normal (role : Role) (fromSq : Sq) (capture : Option Role) (toSq : Sq)
      (promotion : Option Role)
  | castle (king : Sq) (rook : Sq)
  | enPassant (fromSq : Sq) (toSq : Sq)
deriving DecidableEq, Repr

/-- `Square::rank` as an index 0..7 (0 = Rank::First, 1 = Rank::Second,
6 = Rank::Seventh, 7 = Rank::Eighth). -/
def rankOf (s : Sq) : ℕ := s.val / 8

/-- `Square::file` as an index 0..7 (0 = File::A, 7 = File::H). -/
def fileOf (s : Sq) : ℕ := s.val % 8

/-- `Bitboard::shift(n)`: a `u64` shift left by `n` (right by `-n`), i.e.
square `s` moves to `s + n`, bits shifted outside 0..63 are dropped. -/
def bbShift (b : Bitboard) (n : ℤ) : Bitboard :=
  Finset.univ.filter (fun t => ∃ s ∈ b, (s : ℤ) + n = (t : ℤ))

/-- The Rules Oracle interface: the `shakmaty` queries `main.rs` performs on
a `Chess` position.  `attacksTo s c occ` models
`board().attacks_to(s, c, occ)` (the pieces of colour `c` attacking `s`) and
`kingAttackers` models `Position::king_attackers`. -/
structure Oracle where
  turn : Color
  roleAt : Sq → Option Role
  occupied : Bitboard
  us : Bitboard
  them : Bitboard
  attacksFrom : Sq → Bitboard
  attacksTo : Sq → Color → Bitboard → Bitboard
  kingAttackers : Sq → Color → Bitboard → Bitboard
  isLegal : Move → Bool

/-- The FSM's `State` enum from `main.rs`. -/
inductive State
  | idle
  | friendlyPU (sq : Sq)
  | enemyPU (sq : Sq)
  | friendlyAndEnemyPU (friendly enemy : Sq)
  | castling (kingSq rookSq : Sq)
  | castlingPutRookDown (kingSq rookSq targetSq : Sq)
  | invalidPiecePU (prev : Option Sq) (offender : Sq)
  | invalidMove (fromSq toSq : Sq)
  | error
deriving DecidableEq, Repr

/-- `update_state` from `main.rs` (lines 241-472), the board FSM step.
The result is `none` exactly where the Rust code would panic on
`role_at(..).unwrap()` of an empty square: eagerly on the state's friendly
square in the `FriendlyPU` and `FriendlyAndEnemyPU` arms, and on the event
square in the `EnemyPU` arm after the short-circuiting `||` reaches the
`King`-guard disjunct.  All other `.unwrap()` calls in the source are
guarded by `is_some` / `is_none` tests and cannot fire. -/
def update_state (position : Oracle) (instruction : Sq) (state : State) :
    Option (State × Option Move) :=
  let color := position.turn
  let square := instruction
  let occupied := position.occupied
  let friendlies := position.us
  let enemies := position.them
  match state with
  | State.idle =>
      if square ∈ friendlies then
        some (State.friendlyPU square, none)
      else if square ∈ enemies then
        if (position.attacksTo square color occupied).Nonempty then
          some (State.enemyPU square, none)
        else
          some (State.invalidPiecePU none square, none)
      else
        some (State.error, none)
  | State.friendlyPU prev_square =>
      match position.roleAt prev_square with
      | none => none
      | some role_picked_up =>
        let can_capture := position.attacksFrom prev_square ∩ enemies
        if prev_square = square then
          some (State.idle, none)
        else if role_picked_up = Role.rook ∧ position.roleAt square = some Role.king then
          if position.isLegal (Move.castle square prev_square) then
            some (State.castling square prev_square, none)
          else
            some (State.invalidPiecePU (some prev_square) square, none)
        else if role_picked_up = Role.king ∧ position.roleAt square = some Role.rook then
          if position.isLegal (Move.castle prev_square square) then
            some (State.castling prev_square square, none)
          else
            some (State.invalidPiecePU (some prev_square) square, none)
        else if square ∈ friendlies ∨ (square ∈ enemies ∧ square ∉ can_capture) then
          some (State.invalidPiecePU (some prev_square) square, none)
        else if square ∈ can_capture then
          some (State.friendlyAndEnemyPU prev_square square, none)
        else if role_picked_up = Role.pawn ∧ (rankOf square = 0 ∨ rankOf square = 7) then
          some (State.idle,
            some (Move.normal Role.pawn prev_square none square (some Role.queen)))
        else
          let mv := Move.normal role_picked_up prev_square none square none
          if position.isLegal mv then
            some (State.idle, some mv)
          else
            some (State.invalidMove prev_square square, none)
  | State.enemyPU prev_square =>
      if prev_square = square then
        some (State.idle, none)
      else if square ∉ position.attacksTo prev_square color occupied then
        some (State.invalidPiecePU (some prev_square) square, none)
      else if square ∈ enemies then
        some (State.invalidPiecePU (some prev_square) square, none)
      else
        match position.roleAt square with
        | none => none
        | some r =>
          if r = Role.king ∧
              (position.kingAttackers prev_square color.other occupied).Nonempty then
            some (State.invalidPiecePU (some prev_square) square, none)
          else if square ∈ position.attacksTo prev_square color occupied then
            some (State.friendlyAndEnemyPU square prev_square, none)
          else
            some (State.error, none)
  | State.friendlyAndEnemyPU prev_friendly_square prev_enemy_square =>
      match position.roleAt prev_friendly_square with
      | none => none
      | some role_picked_up =>
        if square = prev_friendly_square then
          some (State.enemyPU prev_enemy_square, none)
        else if square = prev_enemy_square then
          if role_picked_up = Role.pawn ∧ (rankOf square = 0 ∨ rankOf square = 7) then
            some (State.idle,
              some (Move.normal role_picked_up prev_friendly_square
                (position.roleAt prev_enemy_square) square (some Role.queen)))
          else
            some (State.idle,
              some (Move.normal role_picked_up prev_friendly_square
                (position.roleAt prev_enemy_square) square none))
        else
          some (State.error, none)
  | State.castling king_square rook_square =>
      match color with
      | Color.white =>
          if fileOf rook_square = 0 then
            if square = (2 : Sq) then
              some (State.castlingPutRookDown king_square rook_square (3 : Sq), none)
            else
              some (State.error, none)
          else
            if square = (6 : Sq) then
              some (State.castlingPutRookDown king_square rook_square (5 : Sq), none)
            else
              some (State.error, none)
      | Color.black =>
          if fileOf rook_square = 0 then
            if square = (58 : Sq) then
              some (State.castlingPutRookDown king_square rook_square (59 : Sq), none)
            else
              some (State.error, none)
          else
            if square = (62 : Sq) then
              some (State.castlingPutRookDown king_square rook_square (61 : Sq), none)
            else
              some (State.error, none)
  | State.castlingPutRookDown king_square rook_square target_square =>
      if square = target_square then
        some (State.idle, some (Move.castle king_square rook_square))
      else
        some (State.error, none)
  | State.invalidPiecePU prev_prev_square prev_square =>
      if square = prev_square then
        match prev_prev_square with
        | none => some (State.idle, none)
        | some pp =>
            if pp ∈ friendlies then
              some (State.friendlyPU pp, none)
            else if pp ∈ enemies then
              some (State.enemyPU pp, none)
            else
              some (State.error, none)
      else
        some (State.error, none)
  | State.invalidMove prev_prev_square prev_square =>
      if square = prev_square then
        some (State.friendlyPU prev_prev_square, none)
      else
        some (State.error, none)
  | State.error => some (State.error, none)

/-- The `RGB` triple of bitboards from `main.rs`. -/
structure RGB where
  r : Bitboard
  g : Bitboard
  b : Bitboard
deriving DecidableEq

/-- `get_rgb` from `main.rs` (lines 130-224), the LED projector.  `none`
models the `role_at(square).unwrap()` panic in the `FriendlyPU` arm when the
recorded square is empty.  In the pawn branch the source builds `canmv_to`
by shifting, conditionally adding the double push, and subtracting
`occupied`; `is_promotion` additionally tests `canmv_to.without(occupied)`
(idempotent: `canmv_to` already excludes `occupied`). -/
def get_rgb (position : Oracle) (state : State) : Option RGB :=
  let color := position.turn
  let occupied := position.occupied
  let enemies := position.them
  match state with
  | State.idle => some ⟨∅, ∅, ∅⟩
  | State.friendlyPU square =>
      match position.roleAt square with
      | none => none
      | some r0 =>
        let can_capture := position.attacksFrom square ∩ enemies
        if r0 = Role.pawn then
          let shift_direction : ℤ := if color = Color.white then 1 else -1
          let canmv0 := bbShift {square} (8 * shift_direction)
          let canmv1 :=
            if (rankOf square = 1 ∧ color = Color.white ∨
                rankOf square = 6 ∧ color = Color.black) ∧
               (canmv0 \ occupied).Nonempty then
              canmv0 ∪ bbShift {square} (16 * shift_direction)
            else canmv0
          let canmv_to := canmv1 \ occupied
          if (rankOf square = 1 ∧ color = Color.black ∨
              rankOf square = 6 ∧ color = Color.white) ∧
             (canmv_to \ occupied).Nonempty then
            some ⟨canmv_to ∪ can_capture, can_capture, canmv_to⟩
          else
            some ⟨can_capture, canmv_to ∪ can_capture, ∅⟩
        else
          let canmv_to := position.attacksFrom square \ occupied
          some ⟨can_capture, canmv_to ∪ can_capture, ∅⟩
  | State.enemyPU square =>
      some ⟨∅, position.attacksTo square color occupied, ∅⟩
  | State.friendlyAndEnemyPU _ enemy_square =>
      some ⟨∅, {enemy_square}, ∅⟩
  | State.castling _ rook_square =>
      let target_square : Sq :=
        match color with
        | Color.white => if rook_square = (0 : Sq) then (2 : Sq) else (6 : Sq)
        | Color.black => if rook_square = (56 : Sq) then (58 : Sq) else (62 : Sq)
      some ⟨{target_square}, ∅, {target_square}⟩
  | State.castlingPutRookDown _ _ target_square =>
      some ⟨{target_square}, ∅, {target_square}⟩
  | State.invalidPiecePU _ square => some ⟨{square}, ∅, ∅⟩
  | State.invalidMove _ square => some ⟨{square}, ∅, ∅⟩
  | State.error => some ⟨Finset.univ, ∅, ∅⟩

/-- The gantry `Step` record; `x`/`y` are `f64` in the source, embedded as
`ℚ` (every occurring value is a multiple of 1/2, exactly representable). -/
structure Step where
  x : ℚ
  y : ℚ
  magnet : Bool
deriving DecidableEq, Repr

/-- `file_to_float`: File A..H (index 0..7) ↦ 1.0..8.0. -/
def file_to_float (f : ℕ) : ℚ := f + 1

/-- `rank_to_float`: Rank First..Eighth (index 0..7) ↦ 1.0..8.0. -/
def rank_to_float (r : ℕ) : ℚ := r + 1

/-- `Move::from()` (always `Some` for the variants the program builds); for
`Castle` it is the king's square. -/
def mvFrom : Move → Sq
  | .normal _ f _ _ _ => f
  | .castle k _ => k
  | .enPassant f _ => f

/-- `Move::to()`; for `Castle` it is the rook's square. -/
def mvTo : Move → Sq
  | .normal _ _ _ t _ => t
  | .castle _ _r => _r
  | .enPassant _ t => t

/-- `Move::role()`. -/
def mvRole : Move → Role
  | .normal r _ _ _ _ => r
  | .castle _ _ => Role.king
  | .enPassant _ _ => Role.pawn

/-- `Move::is_capture()`: a `Normal` move with a `Some` capture, or any
`EnPassant`. -/
def mvIsCapture : Move → Bool
  | .normal _ _ (some _) _ _ => true
  | .enPassant _ _ => true
  | _ => false

/-- `Move::is_castle()`. -/
def mvIsCastle : Move → Bool
  | .castle _ _ => true
  | _ => false

/-- `Move::is_en_passant()`. -/
def mvIsEnPassant : Move → Bool
  | .enPassant _ _ => true
  | _ => false

/-- The promotion field of a move (`None` for castles and en passant). -/
def promoOf : Move → Option Role
  | .normal _ _ _ _ p => p
  | _ => none

/-- `capture_piece` from `main.rs` (lines 681-761): route the piece standing
at `(from_x, from_y)` to the graveyard.  When White moves, Black's piece is
parked at `(9, 1/2 + captured_blacks/2)` via the `x = 8.5` lane; when Black
moves, White's piece is parked at `(0, 17/2 - captured_whites/2)` via the
`x = 0.5` lane. -/
def capture_piece (from_x from_y : ℚ) (current_color : Color)
    (captured_whites captured_blacks : ℚ) : List Step :=
  if current_color = Color.white then
    let direction : ℚ := if captured_blacks / 2 < from_y then -(1/2) else 1/2
    [⟨from_x, from_y, false⟩,
     ⟨from_x, from_y + direction, true⟩,
     ⟨17/2, from_y + direction, true⟩,
     ⟨17/2, 1/2 + captured_blacks / 2, true⟩,
     ⟨9, 1/2 + captured_blacks / 2, true⟩]
  else
    let direction : ℚ := if 17/2 - captured_whites / 2 < from_y then -(1/2) else 1/2
    [⟨from_x, from_y, false⟩,
     ⟨from_x, from_y + direction, true⟩,
     ⟨1/2, from_y + direction, true⟩,
     ⟨1/2, 17/2 - captured_whites / 2, true⟩,
     ⟨0, 17/2 - captured_whites / 2, true⟩]

/-- `move_to_steps` from `main.rs` (lines 552-679), the path planner.  The
source's `(to_x - 8.0).abs() < f64::EPSILON` castle test is `to_x = 8` here:
`to_x` is a whole number in 1..8, so the two are equivalent. -/
def move_to_steps (mv : Move) (current_color : Color)
    (captured_whites captured_blacks : ℚ) : List Step :=
  let from_x : ℚ := file_to_float (fileOf (mvFrom mv))
  let from_y : ℚ := rank_to_float (rankOf (mvFrom mv))
  let to_x : ℚ := file_to_float (fileOf (mvTo mv))
  let to_y : ℚ := rank_to_float (rankOf (mvTo mv))
  if mvIsCastle mv then
    let direction : ℚ := if current_color = Color.white then -(1/2) else 1/2
    let offset : ℚ := if to_x = 8 then -1 else 1
    let queenside_king : ℚ := if to_x = 8 then 0 else 1
    [⟨from_x, from_y, false⟩,
     ⟨to_x + offset + queenside_king, to_y, true⟩,
     ⟨to_x, to_y, false⟩,
     ⟨to_x, to_y + direction, true⟩,
     ⟨from_x - offset, to_y + direction, true⟩,
     ⟨from_x - offset, from_y, true⟩]
  else
    let capturemvs : List Step :=
      if mvIsEnPassant mv then
        let off : ℚ := if current_color = Color.white then -1 else 1
        capture_piece to_x (to_y + off) current_color captured_whites captured_blacks
      else if mvIsCapture mv then
        capture_piece to_x to_y current_color captured_whites captured_blacks
      else []
    let tail : List Step :=
      if mvRole mv = Role.knight then
        [⟨(from_x + to_x) / 2, from_y, true⟩,
         ⟨(from_x + to_x) / 2, to_y, true⟩,
         ⟨to_x, to_y, true⟩]
      else
        [⟨to_x, to_y, true⟩]
    capturemvs ++ ⟨from_x, from_y, false⟩ :: tail

/-- The game loop's external interface (`main`, lines 95-116): committing a
position (`Chess::play`), SAN conversion (`San::from_move` /
`San::to_move`), and the side to move.  `P` is the opaque position handle,
`S` the opaque SAN line type (strings at the wire). -/
structure Api (P : Type) (S : Type) where
  play : P → Move → P
  sanOf : P → Move → S
  sanToMove : P → S → Option Move
  turn : P → Color

/-- `main` lines 97-104, the human-move commit: once `update_state` returns
`Some(mv)`, the loop plays `mv` on the position and only then converts it to
SAN — `San::from_move(&pos, &mv)` reads the reassigned `pos`, i.e. the
*post*-commit position — and sends that SAN.  The capture counters
(`captured_whites`, `captured_blacks`) are not touched anywhere in `main`.
Result: (new position, SAN sent, captured_whites, captured_blacks). -/
def onMoveCommitted {P S : Type} (a : Api P S) (pos : P) (mv : Move)
    (captured_whites captured_blacks : ℕ) : P × S × ℕ × ℕ :=
  let newPos := a.play pos mv
  let move_san := a.sanOf newPos mv
  (newPos, move_san, captured_whites, captured_blacks)

/-- `main` lines 108-116, the opponent ply: read a SAN line, parse it
against the current position (`none` models the `expect` panics on
malformed/illegal SAN), then compute the planner steps.  `pos` is never
reassigned in this region (the `play` call is missing — see the TODO at
line 122 of `main.rs`), so the returned position is the input position
unchanged. -/
def opponentPly {P S : Type} (a : Api P S) (pos : P) (line : S)
    (captured_whites captured_blacks : ℕ) : Option (P × List Step) :=
  match a.sanToMove pos line with
  | none => none
  | some mv =>
      some (pos, move_to_steps mv (a.turn pos)
        (captured_whites : ℚ) (captured_blacks : ℚ))

/-! ## Concrete oracle instances

`posKPK` is the legal position White: Ke1 (4), Pa2 (8); Black: Ke8 (60);
White to move.  Its oracle fields are filled in per real chess:
the white pawn on a2 attacks b3 (17); the white king on e1 attacks
d1 (3), f1 (5), d2 (11), e2 (12), f2 (13); the black king on e8 attacks
d7 (51), e7 (52), f7 (53), d8 (59), f8 (61).  The legal moves are the five
king steps and the pawn pushes a3 (16) and a4 (24). -/

/-- Attack sets of the three pieces of `posKPK` (empty elsewhere). -/
def atkKPK : Sq → Bitboard := fun s =>
  if s.val = 8 then {17}
  else if s.val = 4 then {3, 5, 11, 12, 13}
  else if s.val = 60 then {51, 52, 53, 59, 61}
  else ∅

/-- The position White: Ke1, Pa2; Black: Ke8; White to move, as a concrete
Rules Oracle. -/
def posKPK : Oracle where
  turn := Color.white
  roleAt := fun s =>
    if s.val = 4 then some Role.king
    else if s.val = 8 then some Role.pawn
    else if s.val = 60 then some Role.king
    else none
  occupied := {4, 8, 60}
  us := {4, 8}
  them := {60}
  attacksFrom := atkKPK
  attacksTo := fun s c _ =>
    Finset.univ.filter fun a =>
      a ∈ (if c = Color.white then ({4, 8} : Bitboard) else {60}) ∧ s ∈ atkKPK a
  kingAttackers := fun s c _ =>
    Finset.univ.filter fun a =>
      a ∈ (if c = Color.white then ({4, 8} : Bitboard) else {60}) ∧ s ∈ atkKPK a
  isLegal := fun mv => decide (mv ∈
    [Move.normal Role.king 4 none 3 none,
     Move.normal Role.king 4 none 5 none,
     Move.normal Role.king 4 none 11 none,
     Move.normal Role.king 4 none 12 none,
     Move.normal Role.king 4 none 13 none,
     Move.normal Role.pawn 8 none 16 none,
     Move.normal Role.pawn 8 none 24 none])

/-! ## Claim-side definitions (spec wording, for refinement statements) -/

/-- The square one pawn-push ahead of `sq` for colour `c` (up the board for
White, down for Black), `none` past the edge.  Spec wording, written with
direct index arithmetic rather than the source's bitboard shift. -/
def pushSq (c : Color) (sq : Sq) : Option Sq :=
  match c with
  | Color.white => if h : sq.val + 8 < 64 then some ⟨sq.val + 8, h⟩ else none
  | Color.black => if h : 8 ≤ sq.val then some ⟨sq.val - 8, by omega⟩ else none

/-- §4.2 `can_move_to` for a lifted side-to-move pawn: the one-square push,
plus the two-square push when the pawn is on its home rank (2nd for White,
7th for Black) and the one-square push is free, minus occupied squares. -/
def pawnCanMoveTo (position : Oracle) (sq : Sq) : Bitboard :=
  let d : ℤ := if position.turn = Color.white then 1 else -1
  let push1 := bbShift {sq} (8 * d)
  let both :=
    if (rankOf sq = 1 ∧ position.turn = Color.white ∨
        rankOf sq = 6 ∧ position.turn = Color.black) ∧
       (push1 \ position.occupied).Nonempty then
      push1 ∪ bbShift {sq} (16 * d)
    else push1
  both \ position.occupied

/-- §4.2 `can_capture`: enemy-occupied attack targets of the lifted piece. -/
def pawnCanCapture (position : Oracle) (sq : Sq) : Bitboard :=
  position.attacksFrom sq ∩ position.them

/-- Claim C9's promotion condition: the lifted pawn stands on rank 2 for
Black or rank 7 for White (indices 1 and 6) and its push square is free. -/
def promotionFlag (position : Oracle) (sq : Sq) : Bool :=
  (decide (position.turn = Color.black ∧ rankOf sq = 1) ||
   decide (position.turn = Color.white ∧ rankOf sq = 6)) &&
  match pushSq position.turn sq with
  | none => false
  | some t => decide (t ∉ position.occupied)

/-! ## Api instances for the game-loop claims

SAN lines are opaque tokens here (`ℕ`): 0 stands for the string "Nf3",
1 for "Ngf3", 2 for "e5".  The SAN functions of each instance are filled in
per `shakmaty`'s behaviour on the concrete positions described. -/

/-- The move Ng1-f3 (G1 = 6, F3 = 21). -/
def nf3Move : Move := Move.normal Role.knight 6 none 21 none

/-- Game-loop Api over the position White: Ke1 (4), Ng1 (6), Nd2 (11);
Black: Ke8 (60); White to move (handle 0), and its successor after Ng1-f3
(handle 1, Black to move).  `San::from_move(pos, m)` disambiguates `m`
using the legal moves of the `pos` it is handed: in position 0 both white
knights can reach f3, so Ng1-f3 renders as "Ngf3" (token 1); in position 1
(Black to move) no legal knight move reaches f3, so the same move renders
without disambiguation as "Nf3" (token 0). -/
def knightApi : Api ℕ ℕ where
  play := fun _ _ => 1
  sanOf := fun p mv => if p = 0 ∧ mv = nf3Move then 1 else 0
  sanToMove := fun _ _ => none
  turn := fun p => if p = 0 then Color.white else Color.black

/-- Game-loop Api for the opponent-ply fragment: position handles count
committed moves, so `play` always moves to a fresh handle; token 2 (the SAN
line "e5") parses to Black's reply e7-e5 (52 → 36). -/
def oppApi : Api ℕ ℕ where
  play := fun p _ => p + 1
  sanOf := fun _ _ => 0
  sanToMove := fun _ line =>
    if line = 2 then some (Move.normal Role.pawn 52 none 36 none) else none
  turn := fun _ => Color.black

/-! ## Helper lemmas -/

/-- Shifting a singleton bitboard lands on the stated square when it stays
on the board. -/
lemma bbShift_single_eq (sq t : Sq) (n : ℤ) (ht : (sq : ℤ) + n = (t : ℤ)) :
    bbShift {sq} n = {t} := by
  ext u
  simp only [bbShift, Finset.mem_filter, Finset.mem_univ, true_and, Finset.mem_singleton]
  constructor
  · rintro ⟨s, hs, hsu⟩
    subst hs
    apply Fin.ext; omega
  · intro hu; subst hu
    exact ⟨sq, rfl, ht⟩

/-- The promotion condition computed inside `get_rgb`'s pawn branch — the
rank-2-for-Black / rank-7-for-White test together with the nonemptiness of
the remaining push set — is exactly claim C9's `promotionFlag`: on those
ranks the double-push clause of `can_move_to` is dead (its rank/colour
guard cannot hold simultaneously), so the test reduces to "the push square
is free". -/
lemma promoIff (position : Oracle) (sq : Sq) :
    (((rankOf sq = 1 ∧ position.turn = Color.black) ∨
      (rankOf sq = 6 ∧ position.turn = Color.white)) ∧
     (pawnCanMoveTo position sq \ position.occupied).Nonempty)
    ↔ promotionFlag position sq = true := by
  have hlt := sq.isLt
  unfold promotionFlag pawnCanMoveTo pushSq
  rcases htc : position.turn with _ | _
  · simp only [htc]
    simp
    intro h6
    have h6' : (sq : ℕ) / 8 = 6 := h6
    have h8 : (sq : ℕ) + 8 < 64 := by omega
    have hsh : bbShift {sq} 8 = {(⟨(sq : ℕ) + 8, h8⟩ : Sq)} :=
      bbShift_single_eq _ _ _ (by push_cast; omega)
    simp [h6, h8, hsh, Finset.sdiff_nonempty]
  · simp only [htc]
    simp
    intro h1
    have h1' : (sq : ℕ) / 8 = 1 := h1
    have h8 : 8 ≤ (sq : ℕ) := by omega
    have hsh : bbShift {sq} (-8) = {(⟨(sq : ℕ) - 8, by omega⟩ : Sq)} :=
      bbShift_single_eq _ _ _ (by push_cast; omega)
    simp [h1, h8, hsh, Finset.sdiff_nonempty]

/-! ## Claim C1 -/

/-- Claim C1 counterexample.  In the position White: Ke1, Pa2; Black: Ke8
(White to move) the state `FriendlyPU(A2)` is reachable from `Idle` by the
single event A2 (= 8); the next event A8 (= 56, an empty square on the
eighth rank) makes `update_state` emit the promotion move a2-a8=Q without
consulting `is_legal` — and that move is illegal (the pawn cannot jump six
ranks), refuting "every Move emitted by step ... is legal per the Rules
Oracle". -/
theorem C1_claim_counterexample :
    update_state posKPK 8 State.idle = some (State.friendlyPU 8, none) ∧
    update_state posKPK 56 (State.friendlyPU 8) =
      some (State.idle, some (Move.normal Role.pawn 8 none 56 (some Role.queen))) ∧
    posKPK.isLegal (Move.normal Role.pawn 8 none 56 (some Role.queen)) = false := by
  refine ⟨by decide, by decide, by decide⟩

/-- Claim C1 as amended: every move `update_state` emits carries either no
promotion or promotion = Queen, and a move emitted from a `FriendlyPU`
state *without* a promotion (the only `is_legal`-guarded emission) is legal
per the Rules Oracle.  Promotion emissions (from `FriendlyPU` and
`FriendlyAndEnemyPU`), capture emissions (from `FriendlyAndEnemyPU`) and
the `Castle` emission from `CastlingPutRookDown` skip the legality
check. -/
theorem C1_emitted_moves_partially_checked (position : Oracle) (st : State) (sq : Sq)
    (s' : State) (mv : Move)
    (h : update_state position sq st = some (s', some mv)) :
    (promoOf mv = none ∨ promoOf mv = some Role.queen) ∧
    (∀ p, st = State.friendlyPU p → promoOf mv = none →
      position.isLegal mv = true) := by
  cases st <;> simp only [update_state] at h <;>
    (repeat' split at h) <;>
    first
      | (simp_all [promoOf]; done)
      | (simp only [Option.some.injEq, Prod.mk.injEq] at h
         rcases h with ⟨h1, h2⟩; subst h2; simp_all [promoOf])

/-- Witness for C1: the legal quiet pawn push a2-a3 emitted from
`FriendlyPU(A2)` in `posKPK`. -/
theorem C1_witness :
    (promoOf (Move.normal Role.pawn 8 none 16 none) = none ∨
     promoOf (Move.normal Role.pawn 8 none 16 none) = some Role.queen) ∧
    (∀ p, State.friendlyPU (8 : Sq) = State.friendlyPU p →
      promoOf (Move.normal Role.pawn 8 none 16 none) = none →
      posKPK.isLegal (Move.normal Role.pawn 8 none 16 none) = true) :=
  C1_emitted_moves_partially_checked posKPK (State.friendlyPU 8) 16 State.idle
    (Move.normal Role.pawn 8 none 16 none) (by decide)

/-! ## Claim C2 -/

/-- Claim C2 is violated by the code: `main` plays the move first and only
then calls `San::from_move(&pos, &mv)` on the reassigned `pos`, so the SAN
sent to the opponent driver is computed against the *post*-commit position,
not the pre-commit one the claim (and spec) require.  On `knightApi`
(White knights g1 and d2, human plays Ng1-f3) the sent SAN is the
post-commit rendering (token 0, "Nf3") and differs from the pre-commit SAN
(token 1, "Ngf3", which needs the file disambiguator because both knights
reach f3 before the move is played). -/
theorem C2_san_from_postcommit_position :
    (onMoveCommitted knightApi 0 nf3Move 0 0).2.1 =
      knightApi.sanOf (knightApi.play 0 nf3Move) nf3Move ∧
    (onMoveCommitted knightApi 0 nf3Move 0 0).2.1 ≠ knightApi.sanOf 0 nf3Move := by
  refine ⟨rfl, by decide⟩

/-! ## Claim C3 -/

/-- Claim C3 is violated by the code: the opponent-ply block of `main`
parses the SAN reply and immediately invokes the planner, but never calls
`play` on the parsed move (the TODO at `main.rs` line 122 records the
omission), so the position handle coming out of the block is the input
position unchanged — the opponent's move is not committed before the Step
list is produced, nor ever. -/
theorem C3_opponent_move_not_committed {P S : Type} (a : Api P S) (pos : P)
    (line : S) (cw cb : ℕ) (p' : P) (steps : List Step)
    (h : opponentPly a pos line cw cb = some (p', steps)) :
    p' = pos := by
  unfold opponentPly at h
  cases hm : a.sanToMove pos line <;> rw [hm] at h <;> simp_all

/-- Witness for C3: the opponent reply token 2 ("e5") on `oppApi` parses,
steps are produced, and the position handle is returned unchanged. -/
theorem C3_witness : (0 : ℕ) = 0 :=
  C3_opponent_move_not_committed oppApi 0 2 0 0 0
    (move_to_steps (Move.normal Role.pawn 52 none 36 none) (oppApi.turn 0)
      ((0 : ℕ) : ℚ) ((0 : ℕ) : ℚ)) (by rfl)

/-! ## Claim C4 -/

/-- Claim C4 is violated by the code: `captured_whites`/`captured_blacks`
are declared in `main` and passed to the planner but never incremented
anywhere — the human-commit block returns them unchanged for *every* move,
captures included, so after the scenario-C capture `captured_blacks` is
still 0, not 1. -/
theorem C4_capture_counters_unchanged {P S : Type} (a : Api P S) (pos : P)
    (mv : Move) (cw cb : ℕ) :
    (onMoveCommitted a pos mv cw cb).2.2 = (cw, cb) := rfl

/-! ## Claim C5 -/

/-- Claim C5 counterexample.  From `Castling(E1, H1)` (kingside, White to
move) the only accepted event is the king's landing square G1; sending the
originally-lifted king square E1 (= 4) — or the rook square H1 (= 7) —
drives the FSM to the sticky failure state `Error`, not to any
less-committed recoverable form, refuting put-back symmetry for the
`Castling` state. -/
theorem C5_claim_counterexample :
    update_state posKPK 4 (State.castling 4 7) = some (State.error, none) ∧
    update_state posKPK 7 (State.castling 4 7) = some (State.error, none) := by
  refine ⟨by decide, by decide⟩

/-- Claim C5 as amended: put-back symmetry holds for the other three state
shapes — from `FriendlyPU(s)` and `EnemyPU(s)` the event `s` returns to
`Idle`, and from `FriendlyAndEnemyPU(f, e)` the event `f` returns to
`EnemyPU(e)` — with no move emitted; the `roleAt` hypotheses reflect the
source's eager `role_at(..).unwrap()` on the recorded friendly square. -/
theorem C5_putback_symmetry_amended (position : Oracle) (s f e : Sq)
    (h1 : (position.roleAt s).isSome = true)
    (h2 : (position.roleAt f).isSome = true) :
    update_state position s (State.friendlyPU s) = some (State.idle, none) ∧
    update_state position s (State.enemyPU s) = some (State.idle, none) ∧
    update_state position f (State.friendlyAndEnemyPU f e) =
      some (State.enemyPU e, none) := by
  obtain ⟨r1, hr1⟩ := Option.isSome_iff_exists.mp h1
  obtain ⟨r2, hr2⟩ := Option.isSome_iff_exists.mp h2
  refine ⟨?_, ?_, ?_⟩ <;> simp [update_state, hr1, hr2]

/-- Witness for C5: put-backs of the a2 pawn and of the capture pair
(a2, e8) in `posKPK`. -/
theorem C5_witness :
    update_state posKPK 8 (State.friendlyPU 8) = some (State.idle, none) ∧
    update_state posKPK 8 (State.enemyPU 8) = some (State.idle, none) ∧
    update_state posKPK 8 (State.friendlyAndEnemyPU 8 60) =
      some (State.enemyPU 60, none) :=
  C5_putback_symmetry_amended posKPK 8 8 60 (by decide) (by decide)

/-! ## Claim C6 -/

/-- Claim C6 counterexample.  The claim demands a defined result for every
triple "including states not reachable from Idle, e.g. FriendlyPU of an
empty square"; but on `FriendlyPU(A3)` with A3 (= 16) empty the source
panics on `role_at(prev_square).unwrap()` before examining the event
(modelled by the `none` result). -/
theorem C6_claim_counterexample :
    update_state posKPK 17 (State.friendlyPU 16) = none := by decide

/-- Claim C6 as amended: `update_state` returns a defined (state, move?)
pair whenever the squares the state records are occupied where the source
unwraps them — the friendly square of `FriendlyPU`/`FriendlyAndEnemyPU`,
and, in the `EnemyPU` arm, the event square when the short-circuiting guard
chain reaches the `role_at(square).unwrap()` disjunct (event distinct from
the recorded square, inside `attacks_to`, not an enemy). -/
theorem C6_totality_amended (position : Oracle) (sq : Sq) (st : State)
    (h1 : ∀ p, st = State.friendlyPU p → (position.roleAt p).isSome = true)
    (h2 : ∀ f e, st = State.friendlyAndEnemyPU f e →
      (position.roleAt f).isSome = true)
    (h3 : ∀ p, st = State.enemyPU p → p ≠ sq →
      sq ∈ position.attacksTo p position.turn position.occupied →
      sq ∉ position.them → (position.roleAt sq).isSome = true) :
    (update_state position sq st).isSome = true := by
  cases st with
  | friendlyPU p =>
      have hp := h1 p rfl
      simp only [update_state]
      (repeat' split) <;> simp_all
  | friendlyAndEnemyPU f e =>
      have hf := h2 f e rfl
      simp only [update_state]
      (repeat' split) <;> simp_all
  | enemyPU p =>
      have hp := h3 p rfl
      simp only [update_state]
      (repeat' split) <;> simp_all
  | _ =>
      simp only [update_state]
      (repeat' split) <;> simp_all

/-- Witness for C6: the occupied-square state `FriendlyPU(A2)` with event
A3 in `posKPK` satisfies the hypotheses and steps to a defined result. -/
theorem C6_witness :
    (update_state posKPK 16 (State.friendlyPU 8)).isSome = true :=
  C6_totality_amended posKPK 16 (State.friendlyPU 8)
    (by intro p hp; cases hp; decide)
    (by intro f e hfe; cases hfe)
    (by intro p hp; cases hp)

/-! ## Claim C7 -/

/-- Claim C7: for every capturing move (en passant included) the planner's
Step list opens with a magnet-off touchdown on the victim square — which
for en passant is `(to_x, to_y - 1)` when White moves and `(to_x, to_y + 1)`
when Black moves, and otherwise the destination square —, its fifth step
(index 4, the end of the `capture_piece` prefix) parks the victim at
`(9, 1/2 + captured_blacks/2)` when White moves or
`(0, 17/2 - captured_whites/2)` when Black moves, and its final step places
the capturer at `(to_x, to_y)` with the magnet on. -/
theorem C7_planner_capture_accounting (mv : Move) (c : Color) (cw cb : ℚ)
    (h : mvIsCapture mv = true) :
    (move_to_steps mv c cw cb).head? =
      some ⟨file_to_float (fileOf (mvTo mv)),
            (if mvIsEnPassant mv = true then
               (if c = Color.white then rank_to_float (rankOf (mvTo mv)) - 1
                else rank_to_float (rankOf (mvTo mv)) + 1)
             else rank_to_float (rankOf (mvTo mv))), false⟩ ∧
    (move_to_steps mv c cw cb).get? 4 =
      some (if c = Color.white then (⟨9, 1/2 + cb / 2, true⟩ : Step)
            else ⟨0, 17/2 - cw / 2, true⟩) ∧
    (move_to_steps mv c cw cb).getLast? =
      some ⟨file_to_float (fileOf (mvTo mv)), rank_to_float (rankOf (mvTo mv)),
            true⟩ := by
  cases mv with
  | castle k r0 => simp [mvIsCapture] at h
  | normal role f0 cap t p =>
      cases cap with
      | none => simp [mvIsCapture] at h
      | some cr =>
          cases c <;> by_cases hr : role = Role.knight <;>
            simp [move_to_steps, capture_piece, mvIsCastle, mvIsEnPassant,
              mvIsCapture, mvRole, mvTo, mvFrom, hr, List.getLast?, sub_eq_add_neg]
  | enPassant f0 t =>
      cases c <;>
        simp [move_to_steps, capture_piece, mvIsCastle, mvIsEnPassant,
          mvIsCapture, mvRole, mvTo, mvFrom, List.getLast?, sub_eq_add_neg]

/-- Witness for C7: the scenario-F en passant e5xd6 (E5 = 36, D6 = 43,
White to move, no captures yet). -/
theorem C7_witness :
    (move_to_steps (Move.enPassant 36 43) Color.white 0 0).head? =
      some ⟨file_to_float (fileOf (mvTo (Move.enPassant 36 43))),
            (if mvIsEnPassant (Move.enPassant 36 43) = true then
               (if Color.white = Color.white then
                  rank_to_float (rankOf (mvTo (Move.enPassant 36 43))) - 1
                else rank_to_float (rankOf (mvTo (Move.enPassant 36 43))) + 1)
             else rank_to_float (rankOf (mvTo (Move.enPassant 36 43)))), false⟩ ∧
    (move_to_steps (Move.enPassant 36 43) Color.white 0 0).get? 4 =
      some (if Color.white = Color.white then (⟨9, 1/2 + 0 / 2, true⟩ : Step)
            else ⟨0, 17/2 - 0 / 2, true⟩) ∧
    (move_to_steps (Move.enPassant 36 43) Color.white 0 0).getLast? =
      some ⟨file_to_float (fileOf (mvTo (Move.enPassant 36 43))),
            rank_to_float (rankOf (mvTo (Move.enPassant 36 43))), true⟩ :=
  C7_planner_capture_accounting (Move.enPassant 36 43) Color.white 0 0 (by decide)

/-! ## Claim C8 -/

/-- Claim C8 counterexample.  For 1.Nf3 (G1 = 6 → F3 = 21, White, no
captures) the planner does *not* produce the claimed list
`[(7,1,off), (6,1,on), (6,3,on), (6,3,on)]`: the knight corridor runs at
`x = (from_x + to_x) / 2 = 13/2`, not 6, and the third and fourth steps
differ. -/
theorem C8_claim_counterexample :
    move_to_steps nf3Move Color.white 0 0 ≠
      [⟨7, 1, false⟩, ⟨6, 1, true⟩, ⟨6, 3, true⟩, ⟨6, 3, true⟩] := by
  have h6 : ((6 : Fin 64) : ℕ) = 6 := rfl
  have h21 : ((21 : Fin 64) : ℕ) = 21 := rfl
  have hact : move_to_steps nf3Move Color.white 0 0 =
      [⟨7, 1, false⟩, ⟨13/2, 1, true⟩, ⟨13/2, 3, true⟩, ⟨6, 3, true⟩] := by
    norm_num [nf3Move, move_to_steps, capture_piece, file_to_float, rank_to_float,
      fileOf, rankOf, mvFrom, mvTo, mvRole, mvIsCastle, mvIsCapture,
      mvIsEnPassant, h6, h21]
  rw [hact]
  intro hcontra
  simp only [List.cons.injEq, Step.mk.injEq] at hcontra
  norm_num at hcontra

/-- Claim C8 as amended: the planner's Step list for 1.Nf3 is
`[(7,1,off), (6.5,1,on), (6.5,3,on), (6,3,on)]` — magnet-off pickup at G1,
then the half-file corridor `x = 13/2` at ranks 1 and 3, then the landing
square F3 (matching the spec's own §4.3 knight routing and §8.9). -/
theorem C8_knight_steps_amended :
    move_to_steps nf3Move Color.white 0 0 =
      [⟨7, 1, false⟩, ⟨13/2, 1, true⟩, ⟨13/2, 3, true⟩, ⟨6, 3, true⟩] := by
  have h6 : ((6 : Fin 64) : ℕ) = 6 := rfl
  have h21 : ((21 : Fin 64) : ℕ) = 21 := rfl
  norm_num [nf3Move, move_to_steps, capture_piece, file_to_float, rank_to_float,
    fileOf, rankOf, mvFrom, mvTo, mvRole, mvIsCastle, mvIsCapture,
    mvIsEnPassant, h6, h21]

/-! ## Claim C9 -/

/-- Claim C9: for a lifted side-to-move pawn the LED projector flags
promotion exactly under `promotionFlag` — the pawn stands on rank 2 for
Black or rank 7 for White (the source's inverted-colour test, preserved by
the claim) and its push square is free — and the channels are: promotion
R = can_move_to ∪ can_capture, G = can_capture, B = can_move_to;
non-promotion R = can_capture, G = can_move_to ∪ can_capture, B = ∅. -/
theorem C9_led_promotion_channels (position : Oracle) (sq : Sq)
    (h : position.roleAt sq = some Role.pawn) :
    get_rgb position (State.friendlyPU sq) =
      some (if promotionFlag position sq then
              RGB.mk (pawnCanMoveTo position sq ∪ pawnCanCapture position sq)
                     (pawnCanCapture position sq) (pawnCanMoveTo position sq)
            else
              RGB.mk (pawnCanCapture position sq)
                     (pawnCanMoveTo position sq ∪ pawnCanCapture position sq)
                     ∅) := by
  have hiff := promoIff position sq
  have hfold : pawnCanMoveTo position sq =
      (if (rankOf sq = 1 ∧ position.turn = Color.white ∨
           rankOf sq = 6 ∧ position.turn = Color.black) ∧
          Finset.Nonempty
            (bbShift {sq} (8 * if position.turn = Color.white then 1 else -1) \
              position.occupied) then
        bbShift {sq} (8 * if position.turn = Color.white then 1 else -1) ∪
          bbShift {sq} (16 * if position.turn = Color.white then 1 else -1)
      else bbShift {sq} (8 * if position.turn = Color.white then 1 else -1)) \
        position.occupied := rfl
  have hcap : pawnCanCapture position sq =
      position.attacksFrom sq ∩ position.them := rfl
  simp only [get_rgb, h, if_true]
  simp only [← hfold, ← hcap]
  simp only [hiff]
  split_ifs <;> rfl

/-- Witness for C9: the lifted a2 pawn of `posKPK` (no promotion flagged;
G channel = the two pushes a3, a4). -/
theorem C9_witness :
    get_rgb posKPK (State.friendlyPU 8) =
      some (if promotionFlag posKPK 8 then
              RGB.mk (pawnCanMoveTo posKPK 8 ∪ pawnCanCapture posKPK 8)
                     (pawnCanCapture posKPK 8) (pawnCanMoveTo posKPK 8)
            else
              RGB.mk (pawnCanCapture posKPK 8)
                     (pawnCanMoveTo posKPK 8 ∪ pawnCanCapture posKPK 8)
                     ∅) :=
  C9_led_promotion_channels posKPK 8 (by decide)

/-! ## Claim C10 -/

/-- Claim C10: whenever `update_state` returns a `Some` move, the state it
returns alongside is exactly `Idle` — all four emitting branches of the
source pair the move with `State::Idle`. -/
theorem C10_emit_resets_to_idle (position : Oracle) (st : State) (sq : Sq)
    (s' : State) (mv : Move)
    (h : update_state position sq st = some (s', some mv)) :
    s' = State.idle := by
  cases st <;> simp only [update_state] at h <;>
    (repeat' split at h) <;> simp_all

/-- Witness for C10: the committed pawn push a2-a3 in `posKPK` returns the
`Idle` state. -/
theorem C10_witness : State.idle = State.idle :=
  C10_emit_resets_to_idle posKPK (State.friendlyPU 8) 16 State.idle
    (Move.normal Role.pawn 8 none 16 none) (by decide)

end Flagfall
